import Mathlib

/-!
Verification of the Gazebo mimic-joint plugin
(`src/xarm_gazebo/src/mimic_joint_plugin.cpp`).

The plugin drives one joint (the mimic joint) to track an affine copy of
the angle of another joint (the master joint), each physics tick, either by a
direct position command or through a PID force controller.

Embedding conventions:
* C++ `double` is modelled by `ℚ` (exact arithmetic; overflow and rounding
  are out of scope for the claims considered here).
* The host runtime (Gazebo model, SDF configuration bundle, ROS parameter
  server, log sink) is modelled by explicit data passed to `Load`.
* Writes to the mimic joint (`SetForce`, `SetPosition`, `SetParam`) are
  reified as a `JointWrite` trace instead of mutating hidden state.
-/

namespace MimicJoint

/-- A Gazebo joint, reduced to the two observables the plugin reads:
`Position(0)` (used only at tick time, so ticks take angles as inputs)
and `GetEffortLimit(0)` (read at load time). -/
structure Joint where
  position : ℚ
  effortLimit : ℚ
deriving DecidableEq

/-- The world physics parameters the plugin reads: `Physics()->GetMaxStepSize()`. -/
structure World where
  maxStepSize : ℚ
deriving DecidableEq

/-- The host model: named joints plus the world.  `GetJoint` is lookup by name. -/
structure Model where
  joints : List (String × Joint)
  world : World
deriving DecidableEq

/-- `model->GetJoint(name)`: first joint with the given name, if any. -/
def Model.getJoint (m : Model) (name : String) : Option Joint :=
  (m.joints.find? (fun p => p.1 == name)).map Prod.snd

/-- The SDF configuration bundle, restricted to the elements the plugin
queries with `HasElement`/`GetElement`.  `hasPID` is a pure presence flag
(line 67: `has_pid_ = sdf->HasElement("hasPID")`). -/
structure SdfConfig where
  joint : Option String
  mimicJoint : Option String
  hasPID : Bool
  multiplier : Option ℚ
  offset : Option ℚ
  sensitiveness : Option ℚ
  maxEffort : Option ℚ
deriving DecidableEq

/-- The ROS parameters `gains.<joint>.p|i|d|i_clamp` as the parameter server
resolves them: `none` means the parameter was not overridden, so
`declare_parameter` returns its default. -/
structure GainParams where
  p : Option ℚ
  i : Option ℚ
  d : Option ℚ
  iClamp : Option ℚ
deriving DecidableEq

/-- `node->declare_parameter<double>(name, default)`: the override when
present, otherwise the default. -/
def declareParameter (override : Option ℚ) (default : ℚ) : ℚ :=
  override.getD default

/-- `ignition::math::clamp(v, lo, hi) = std::max(std::min(v, hi), lo)`. -/
def clamp (v lo hi : ℚ) : ℚ :=
  max (min v hi) lo

/-- Modelled from the spec: the external `control_toolbox::Pid` state is not
part of this repository; its fields follow the PID Controller state of the spec,
`{kp, ki, kd, i_clamp (symmetric ±), integral_accumulator, previous_error}`,
with the clamp bounds kept as the pair `(iMax, iMin)` the constructor
receives. -/
structure Pid where
  pGain : ℚ
  iGain : ℚ
  dGain : ℚ
  iMax : ℚ
  iMin : ℚ
  iTerm : ℚ
  pErrLast : ℚ
deriving DecidableEq

/-- `control_toolbox::Pid(p, i, d, i_max, i_min)`: gains set, accumulator and
previous error start at zero. -/
def Pid.mk5 (p i d iMax iMin : ℚ) : Pid :=
  ⟨p, i, d, iMax, iMin, 0, 0⟩

/-- Modelled from the spec: `control_toolbox::Pid::computeCommand(error, dt)`
is external library code; the spec states its law as
`command = kp*error + ki*integral(error·dt, clamped) + kd*(error - previous_error)/dt`,
with the integral accumulating and clamping on every call.  Returns the raw
command together with the updated controller state. -/
def Pid.computeCommand (pid : Pid) (error dt : ℚ) : ℚ × Pid :=
  (pid.pGain * error
     + pid.iGain * clamp (pid.iTerm + error * dt) pid.iMin pid.iMax
     + pid.dGain * ((error - pid.pErrLast) / dt),
   ⟨pid.pGain, pid.iGain, pid.dGain, pid.iMax, pid.iMin,
     clamp (pid.iTerm + error * dt) pid.iMin pid.iMax, error⟩)

/-- A write issued to the mimic joint: `SetForce(axis, value)`,
`SetPosition(axis, value, override)` or `SetParam(key, axis, value)`. -/
inductive JointWrite where
  | setForce (axis : ℕ) (value : ℚ)
  | setPosition (axis : ℕ) (value : ℚ) (override : Bool)
  | setParam (key : String) (axis : ℕ) (value : ℚ)
deriving DecidableEq

/-- Severity of a log emission (`RCLCPP_INFO` / `RCLCPP_ERROR` / `RCLCPP_FATAL`). -/
inductive LogLevel where
  | info
  | error
  | fatal
deriving DecidableEq

/-- One log emission. -/
structure LogMsg where
  level : LogLevel
  text : String
deriving DecidableEq

/-- A failure diagnostic is any non-informational emission (error or fatal). -/
def LogMsg.isDiagnostic (m : LogMsg) : Bool :=
  match m.level with
  | LogLevel.info => false
  | LogLevel.error => true
  | LogLevel.fatal => true

/-- The member state a successfully armed plugin carries into `OnUpdate`.
`pid = some _` exactly when `has_pid_` was set: `Load` creates `pid_`
iff `has_pid_` holds (lines 67-76) and neither field changes afterwards,
so the C++ pair `(has_pid_, pid_)` is represented by the single option. -/
structure PluginState where
  jointName : String
  mimicJointName : String
  pid : Option Pid
  multiplier : ℚ
  offset : ℚ
  sensitiveness : ℚ
  maxEffort : ℚ
  loopPeriodCount : ℚ
deriving DecidableEq

/-- `has_pid_`. -/
def PluginState.hasPID (s : PluginState) : Bool :=
  s.pid.isSome

/-- `rclcpp::Rate::make_shared(f)->period().count()`: the nominal period of a
rate of frequency `f`, as a nanosecond count. -/
def ratePeriodCount (frequency : ℚ) : ℚ :=
  1000000000 / frequency

/-- The outcome of `Load`: whether the world-update connection was made
(`armed`), the member state when it was, everything logged, and the writes
issued to the mimic joint during `Load` itself. -/
structure LoadResult where
  armed : Bool
  state : Option PluginState
  logs : List LogMsg
  mimicWrites : List JointWrite
deriving DecidableEq

/-- Line 31: the startup banner logged before any check. -/
def startLog : LogMsg :=
  ⟨LogLevel.info, "Starting gazebo_ros2_mimic_joint plugin"⟩

/-- Line 37. -/
def modelNullLog : LogMsg :=
  ⟨LogLevel.error, "parent model is NULL"⟩

/-- Lines 43-46. -/
def rosNotReadyLog : LogMsg :=
  ⟨LogLevel.fatal, "A ROS node for Gazebo has not been set up, unable to load plugin."⟩

/-- Line 52. -/
def noJointLog : LogMsg :=
  ⟨LogLevel.error, "No joint element present. GazeboMimicJointPlugin could not be loaded."⟩

/-- Line 60. -/
def noMimicJointLog : LogMsg :=
  ⟨LogLevel.error, "No mimicJoint element present. GazeboMimicJointPlugin could not be loaded."⟩

/-- Lines 93-128 of `Load`, after the configuration keys have been read and
the optional PID constructed: resolve both joints, default `max_effort_`
from the effort limit of the mimic joint, set `fmax` once when no PID is used,
capture the nominal loop period, connect the update event and log the
summary. -/
def loadResolve (model : Model) (jointName mimicJointName : String)
    (pid : Option Pid) (sdf : SdfConfig) : LoadResult :=
  match model.getJoint jointName with
  | none =>
    ⟨false, none,
      [startLog, ⟨LogLevel.error, "No joint named " ++ jointName⟩], []⟩
  | some _ =>
    match model.getJoint mimicJointName with
    | none =>
      ⟨false, none,
        [startLog, ⟨LogLevel.error, "No mimic joint named " ++ mimicJointName⟩], []⟩
    | some mimicJoint =>
      ⟨true,
        some ⟨jointName, mimicJointName, pid,
          declareParameter sdf.multiplier 1,
          declareParameter sdf.offset 0,
          declareParameter sdf.sensitiveness 0,
          sdf.maxEffort.getD mimicJoint.effortLimit,
          ratePeriodCount (1 / model.world.maxStepSize)⟩,
        [startLog, ⟨LogLevel.info, "MimicJointPlugin loaded"⟩],
        if pid.isSome then []
        else [JointWrite.setParam "fmax" 0 (sdf.maxEffort.getD mimicJoint.effortLimit)]⟩

/-- `GazeboMimicJointPlugin::Load(parent, sdf)` (lines 26-129).  `parent`
is the possibly-null host model, `rosOk` is `rclcpp::ok()`, `gains` are the
resolved `gains.<joint>.*` parameters.  The defaulted SDF elements
(`multiplier` 1.0, `offset` 0.0, `sensitiveness` 0.0) and the PID gain
defaults (10.0, 0.1, 0.0, 0.2 with the clamp passed as `(i_clamp, -i_clamp)`)
follow lines 68-91. -/
def Load (parent : Option Model) (rosOk : Bool) (sdf : SdfConfig)
    (gains : GainParams) : LoadResult :=
  match parent with
  | none => ⟨false, none, [startLog, modelNullLog], []⟩
  | some model =>
    if rosOk then
      match sdf.joint with
      | none => ⟨false, none, [startLog, noJointLog], []⟩
      | some jointName =>
        match sdf.mimicJoint with
        | none => ⟨false, none, [startLog, noMimicJointLog], []⟩
        | some mimicJointName =>
          loadResolve model jointName mimicJointName
            (if sdf.hasPID then
              some (Pid.mk5
                (declareParameter gains.p 10)
                (declareParameter gains.i (1/10))
                (declareParameter gains.d 0)
                (declareParameter gains.iClamp (1/5))
                (-(declareParameter gains.iClamp (1/5))))
            else none)
            sdf
    else ⟨false, none, [startLog, rosNotReadyLog], []⟩

/-- `GazeboMimicJointPlugin::OnUpdate()` (lines 131-147), with the two joint
angle reads (`joint_->Position(0)`, `mimic_joint_->Position(0)`) supplied as
arguments.  Line 134 computes `angle = masterPosition * multiplier + offset`;
line 137 tests `fabs(angle - a) >= sensitiveness_`; the PID branch clamps
`pid_->computeCommand(error, loop_rate_->period().count())` into
`[-max_effort_, max_effort_]` and issues `SetForce(0, effort)`; the direct
branch issues `SetPosition(0, angle, true)`.  Returns the writes issued this
tick and the updated state (only the PID accumulator can change). -/
def OnUpdate (s : PluginState) (masterPosition mimicPosition : ℚ) :
    List JointWrite × PluginState :=
  if s.sensitiveness ≤ |masterPosition * s.multiplier + s.offset - mimicPosition| then
    match s.pid with
    | some pid =>
      ([JointWrite.setForce 0
          (clamp
            (pid.computeCommand (masterPosition * s.multiplier + s.offset - mimicPosition)
              s.loopPeriodCount).1
            (-s.maxEffort) s.maxEffort)],
       ⟨s.jointName, s.mimicJointName,
         some (pid.computeCommand (masterPosition * s.multiplier + s.offset - mimicPosition)
           s.loopPeriodCount).2,
         s.multiplier, s.offset, s.sensitiveness, s.maxEffort, s.loopPeriodCount⟩)
    | none =>
      ([JointWrite.setPosition 0 (masterPosition * s.multiplier + s.offset) true], s)
  else ([], s)

/-- The per-tick host input of the spec: master angle, mimic angle, and the
elapsed time since the previous tick (all host-supplied). -/
structure TickInput where
  masterAngle : ℚ
  mimicAngle : ℚ
  elapsed : ℚ
deriving DecidableEq

/-- One host world-update broadcast delivered to the plugin: `OnUpdate`
reads the two angles; it takes no per-invocation time argument. -/
def tick (s : PluginState) (inp : TickInput) : List JointWrite × PluginState :=
  OnUpdate s inp.masterAngle inp.mimicAngle

/-- The writes issued over a sequence of ticks, threading the plugin state. -/
def processTicks (s : PluginState) : List TickInput → List JointWrite
  | [] => []
  | inp :: rest => (tick s inp).1 ++ processTicks (tick s inp).2 rest

/-- Ticks reach the plugin only through the world-update connection, which
`Load` makes only on the armed path: an unarmed result processes nothing. -/
def runTicks (r : LoadResult) (inputs : List TickInput) : List JointWrite :=
  if r.armed then
    match r.state with
    | some s => processTicks s inputs
    | none => []
  else []

/-! Concrete fixtures used to exercise the definitions on explicit inputs. -/

/-- A host model with a single joint `j1` at angle 0 with effort limit 5,
and a physics step of 1/1000 s. -/
def sampleModel : Model :=
  ⟨[("j1", ⟨0, 5⟩)], ⟨1/1000⟩⟩

/-- No `gains.<joint>.*` parameter overridden. -/
def noGains : GainParams :=
  ⟨none, none, none, none⟩

/-- The documented default gains given explicitly. -/
def defaultGains : GainParams :=
  ⟨some 10, some (1/10), some 0, some (1/5)⟩

/-- A configuration naming the same joint as both master and mimic. -/
def sameJointSdf : SdfConfig :=
  ⟨some "j1", some "j1", false, none, none, none, none⟩

/-- A configuration lacking the `mimicJoint` key. -/
def noMimicSdf : SdfConfig :=
  ⟨some "j1", none, false, none, none, none, none⟩

/-- A configuration with the `hasPID` marker and no explicit gains or limits. -/
def pidSdf : SdfConfig :=
  ⟨some "j1", some "j1", true, none, none, none, none⟩

/-- A pure-integral PID (ki = 1, wide clamp), so the command directly
exposes the time delta used: command = integral = error * dt. -/
def integPid : Pid :=
  Pid.mk5 0 1 0 100 (-100)

/-- An armed PID-mode state with nominal loop period 1, unit multiplier,
zero offset/deadband and max effort 10. -/
def pidTickState : PluginState :=
  ⟨"j1", "j2", some integPid, 1, 0, 0, 10, 1⟩

/-- A tick whose host-supplied elapsed time equals the nominal period. -/
def fastIn : TickInput :=
  ⟨1, 0, 1⟩

/-- A tick whose host-supplied elapsed time (5) differs from the nominal
period (1) stored in `pidTickState`. -/
def slowIn : TickInput :=
  ⟨1, 0, 5⟩

/-- The round-trip scenario state: direct drive, multiplier 2, offset -1/2,
deadband 0. -/
def roundTripState : PluginState :=
  ⟨"j1", "j2", none, 2, -(1/2), 0, 1, 1⟩

/-- A PID-mode state with max effort 1 and a proportional gain large enough
that the raw command exceeds the bound, exercising the clamp. -/
def forceBoundState : PluginState :=
  ⟨"j1", "j2", some (Pid.mk5 1 0 0 0 0), 1, 0, 0, 1, 1⟩

/-- A direct-drive state with zero deadband. -/
def directState : PluginState :=
  ⟨"j1", "j2", none, 1, 0, 0, 1, 1⟩

/-- A direct-drive state with deadband 1. -/
def deadbandState : PluginState :=
  ⟨"j1", "j2", none, 1, 0, 1, 1, 1⟩

/-- The armed state `Load` produces for `sampleModel`/`sameJointSdf`:
max effort defaulted from the effort limit 5 of joint `j1`, loop period
count 10^9/1000. -/
def sameJointState : PluginState :=
  ⟨"j1", "j1", none, 1, 0, 0, 5, 1000000⟩

/-! Helper lemmas shared by the claim theorems. -/

lemma neg_le_clamp_neg (v E : ℚ) : -E ≤ clamp v (-E) E :=
  le_max_right _ _

lemma clamp_neg_le (v E : ℚ) (h : 0 ≤ E) : clamp v (-E) E ≤ E :=
  max_le (min_le_right _ _) (neg_le_self h)

/-- A tick never changes the configured parameters, only the PID state. -/
lemma OnUpdate_preserves (s : PluginState) (mp ap : ℚ) :
    ((OnUpdate s mp ap).2).maxEffort = s.maxEffort
    ∧ ((OnUpdate s mp ap).2).loopPeriodCount = s.loopPeriodCount := by
  unfold OnUpdate
  split
  · rcases s.pid with _ | pid <;> exact ⟨rfl, rfl⟩
  · exact ⟨rfl, rfl⟩

/-- Any force command a single tick issues is clamped into
`[-max_effort, max_effort]`. -/
lemma OnUpdate_setForce_bound (s : PluginState) (mp ap : ℚ) (h0 : 0 ≤ s.maxEffort)
    (ax : ℕ) (v : ℚ) (hmem : JointWrite.setForce ax v ∈ (OnUpdate s mp ap).1) :
    -s.maxEffort ≤ v ∧ v ≤ s.maxEffort := by
  unfold OnUpdate at hmem
  split at hmem
  · rcases hpd : s.pid with _ | pid
    · rw [hpd] at hmem
      simp at hmem
    · rw [hpd] at hmem
      simp only [List.mem_singleton, JointWrite.setForce.injEq] at hmem
      rcases hmem with ⟨-, rfl⟩
      exact ⟨neg_le_clamp_neg _ _, clamp_neg_le _ _ h0⟩
  · simp at hmem

/-- Bound over a whole tick sequence, by induction. -/
lemma processTicks_setForce_bound :
    ∀ (inputs : List TickInput) (s : PluginState), 0 ≤ s.maxEffort →
      ∀ (ax : ℕ) (v : ℚ), JointWrite.setForce ax v ∈ processTicks s inputs →
        -s.maxEffort ≤ v ∧ v ≤ s.maxEffort := by
  intro inputs
  induction inputs with
  | nil =>
    intro s h0 ax v hmem
    simp [processTicks] at hmem
  | cons inp rest ih =>
    intro s h0 ax v hmem
    simp only [processTicks] at hmem
    rcases List.mem_append.mp hmem with hm | hm
    · exact OnUpdate_setForce_bound s inp.masterAngle inp.mimicAngle h0 ax v hm
    · have hmax : ((tick s inp).2).maxEffort = s.maxEffort :=
        (OnUpdate_preserves s inp.masterAngle inp.mimicAngle).1
      have hres := ih ((tick s inp).2) (by rw [hmax]; exact h0) ax v hm
      rw [hmax] at hres
      exact hres

/-- When `loadResolve` arms, both joints resolved and the armed state and
load-time mimic writes are exactly these. -/
lemma loadResolve_arms (model : Model) (jn mn : String) (pidArg : Option Pid)
    (sdf : SdfConfig) (st : PluginState)
    (hst : (loadResolve model jn mn pidArg sdf).state = some st) :
    ∃ mj : Joint, model.getJoint mn = some mj
      ∧ st = ⟨jn, mn, pidArg,
          declareParameter sdf.multiplier 1,
          declareParameter sdf.offset 0,
          declareParameter sdf.sensitiveness 0,
          sdf.maxEffort.getD mj.effortLimit,
          ratePeriodCount (1 / model.world.maxStepSize)⟩
      ∧ (loadResolve model jn mn pidArg sdf).mimicWrites
          = (if pidArg.isSome then []
             else [JointWrite.setParam "fmax" 0 (sdf.maxEffort.getD mj.effortLimit)]) := by
  unfold loadResolve at hst ⊢
  rcases hgj : model.getJoint jn with _ | j
  · rw [hgj] at hst
    cases hst
  · rw [hgj] at hst
    rcases hgm : model.getJoint mn with _ | mj
    · rw [hgm] at hst
      cases hst
    · rw [hgm] at hst
      injection hst with h
      exact ⟨mj, rfl, h.symm, rfl⟩

/-- When `Load` produces a state, every arm-time gate passed and the result
is `loadResolve` on the resolved configuration. -/
lemma Load_state_some (parent : Option Model) (rosOk : Bool) (sdf : SdfConfig)
    (gains : GainParams) (st : PluginState)
    (hst : (Load parent rosOk sdf gains).state = some st) :
    ∃ (m : Model) (jn mn : String), parent = some m ∧ rosOk = true
      ∧ sdf.joint = some jn ∧ sdf.mimicJoint = some mn
      ∧ Load parent rosOk sdf gains
          = loadResolve m jn mn
              (if sdf.hasPID then
                some (Pid.mk5
                  (declareParameter gains.p 10)
                  (declareParameter gains.i (1/10))
                  (declareParameter gains.d 0)
                  (declareParameter gains.iClamp (1/5))
                  (-(declareParameter gains.iClamp (1/5))))
              else none)
              sdf := by
  rcases parent with _ | m
  · cases hst
  · rcases hro : rosOk with _ | _
    · subst hro
      cases hst
    · subst hro
      rcases hj : sdf.joint with _ | jn


      · unfold Load at hst
        rw [hj] at hst
        simp at hst
      · rcases hmn : sdf.mimicJoint with _ | mn
        · unfold Load at hst
          rw [hj, hmn] at hst
          simp at hst
        · refine ⟨m, jn, mn, rfl, rfl, rfl, rfl, ?_⟩
          unfold Load
          rw [hj, hmn]
          rfl

/-! Claim theorems. -/

/-- C1: whenever a force command is issued (PID mode, error at or above the
deadband), and over every sequence of tick inputs, the force value written
to the mimic joint lies in `[-max_effort, max_effort]`. -/
theorem pid_forces_within_max_effort (s : PluginState) (h0 : 0 ≤ s.maxEffort)
    (inputs : List TickInput) (ax : ℕ) (v : ℚ)
    (hmem : JointWrite.setForce ax v ∈ processTicks s inputs) :
    -s.maxEffort ≤ v ∧ v ≤ s.maxEffort :=
  processTicks_setForce_bound inputs s h0 ax v hmem

/-- The tick sequence of the C1 witness issues the clamped force 1. -/
lemma forceBound_tick_writes :
    JointWrite.setForce 0 1 ∈ processTicks forceBoundState [⟨2, 0, 1⟩] := by
  simp only [processTicks, tick, OnUpdate, forceBoundState, Pid.mk5, Pid.computeCommand, clamp]
  norm_num [min_def, max_def]

/-- C1 witness: a concrete PID tick whose raw command 2 is clamped to the
max effort 1, which lies inside the interval. -/
theorem pid_forces_within_max_effort_witness :
    -forceBoundState.maxEffort ≤ (1 : ℚ) ∧ (1 : ℚ) ≤ forceBoundState.maxEffort :=
  pid_forces_within_max_effort forceBoundState (by norm_num [forceBoundState])
    [⟨2, 0, 1⟩] 0 1 forceBound_tick_writes

/-- C3: in direct-drive mode (no PID), when the error is at or above the
deadband, the tick issues exactly one write: a position command equal to
`master*multiplier + offset` with the override flag true — and no force
command. -/
theorem direct_drive_exact (s : PluginState) (mp ap : ℚ) (hpid : s.pid = none)
    (hdb : s.sensitiveness ≤ |mp * s.multiplier + s.offset - ap|) :
    (OnUpdate s mp ap).1
      = [JointWrite.setPosition 0 (mp * s.multiplier + s.offset) true] := by
  unfold OnUpdate
  rw [if_pos hdb, hpid]

/-- C3 witness: a concrete direct-drive tick issuing the exact target. -/
theorem direct_drive_exact_witness :
    (OnUpdate directState 1 0).1
      = [JointWrite.setPosition 0 (1 * directState.multiplier + directState.offset) true] :=
  direct_drive_exact directState 1 0 rfl (by norm_num [directState])

/-- C4: the per-tick target is exactly `master*multiplier + offset`, with no
clamping or transformation: the direct-drive position command carries that
value verbatim, and in PID mode the error fed to the controller (observable
as the recorded previous error) is exactly that target minus the mimic
angle. -/
theorem target_affine_exact (s : PluginState) (mp ap : ℚ) :
    (s.pid = none → s.sensitiveness ≤ |mp * s.multiplier + s.offset - ap| →
      (OnUpdate s mp ap).1
        = [JointWrite.setPosition 0 (mp * s.multiplier + s.offset) true])
    ∧ ∀ pid : Pid, s.pid = some pid →
        s.sensitiveness ≤ |mp * s.multiplier + s.offset - ap| →
        ∃ pid2 : Pid, ((OnUpdate s mp ap).2).pid = some pid2
          ∧ pid2.pErrLast = mp * s.multiplier + s.offset - ap := by
  constructor
  · intro hpid hdb
    unfold OnUpdate
    rw [if_pos hdb, hpid]
  · intro pid hpid hdb
    unfold OnUpdate
    rw [if_pos hdb, hpid]
    exact ⟨_, rfl, rfl⟩

/-- C4 witness: the direct-drive branch at a concrete input. -/
theorem target_affine_exact_witness :
    (OnUpdate directState 1 0).1
      = [JointWrite.setPosition 0 (1 * directState.multiplier + directState.offset) true]
    ∧ ∃ pid2 : Pid, ((OnUpdate pidTickState 1 0).2).pid = some pid2
        ∧ pid2.pErrLast = 1 * pidTickState.multiplier + pidTickState.offset - 0 :=
  ⟨(target_affine_exact directState 1 0).1 rfl (by norm_num [directState]),
   (target_affine_exact pidTickState 1 0).2 integPid rfl (by norm_num [pidTickState])⟩

/-- C5: when the error is strictly below the deadband, the tick issues no
write at all and leaves the whole state — in particular the PID integral
accumulator and previous error — unchanged. -/
theorem deadband_withholds_command (s : PluginState) (mp ap : ℚ)
    (hdb : |mp * s.multiplier + s.offset - ap| < s.sensitiveness) :
    OnUpdate s mp ap = ([], s) := by
  unfold OnUpdate
  rw [if_neg (not_le.mpr hdb)]

/-- C5 witness: a concrete tick inside the deadband changes nothing. -/
theorem deadband_withholds_command_witness :
    OnUpdate deadbandState 0 0 = ([], deadbandState) :=
  deadband_withholds_command deadbandState 0 0 (by norm_num [deadbandState])

/-- C2: a configuration lacking the `mimicJoint` key never arms: the result
is unarmed with no member state, exactly one failure diagnostic among the
logs, no load-time write to the mimic joint, and no tick sequence ever
produces a write. -/
theorem missing_mimicJoint_never_arms (parent : Option Model) (rosOk : Bool)
    (sdf : SdfConfig) (gains : GainParams) (h : sdf.mimicJoint = none) :
    (Load parent rosOk sdf gains).armed = false
    ∧ (Load parent rosOk sdf gains).state = none
    ∧ ((Load parent rosOk sdf gains).logs.filter LogMsg.isDiagnostic).length = 1
    ∧ (Load parent rosOk sdf gains).mimicWrites = []
    ∧ ∀ inputs : List TickInput, runTicks (Load parent rosOk sdf gains) inputs = [] := by
  obtain ⟨js, mjs, hp, mu, off, sen, me⟩ := sdf
  rcases mjs with _ | mn
  · rcases parent with _ | m
    · exact ⟨rfl, rfl, rfl, rfl, fun _ => rfl⟩
    · rcases rosOk with _ | _
      · exact ⟨rfl, rfl, rfl, rfl, fun _ => rfl⟩
      · rcases js with _ | jn
        · exact ⟨rfl, rfl, rfl, rfl, fun _ => rfl⟩
        · exact ⟨rfl, rfl, rfl, rfl, fun _ => rfl⟩
  · simp at h

/-- C2 witness: the concrete no-`mimicJoint` configuration, with a sample
tick sequence processing nothing. -/
theorem missing_mimicJoint_never_arms_witness :
    (Load (some sampleModel) true noMimicSdf noGains).armed = false
    ∧ ((Load (some sampleModel) true noMimicSdf noGains).logs.filter LogMsg.isDiagnostic).length = 1
    ∧ (Load (some sampleModel) true noMimicSdf noGains).mimicWrites = []
    ∧ runTicks (Load (some sampleModel) true noMimicSdf noGains) [⟨1, 2, 3⟩] = [] :=
  ⟨(missing_mimicJoint_never_arms (some sampleModel) true noMimicSdf noGains rfl).1,
   (missing_mimicJoint_never_arms (some sampleModel) true noMimicSdf noGains rfl).2.2.1,
   (missing_mimicJoint_never_arms (some sampleModel) true noMimicSdf noGains rfl).2.2.2.1,
   (missing_mimicJoint_never_arms (some sampleModel) true noMimicSdf noGains rfl).2.2.2.2 [⟨1, 2, 3⟩]⟩

/-- C6 counterexample: at `master_angle = 1, multiplier = 2, offset = -1/2,
mimic_angle = 3/2, deadband = 0` the target is `3/2` and the error is `0`,
but a command IS issued (the actuation test is `fabs(error) >= deadband`,
and `0 >= 0` holds), refuting the claim that no command is issued. -/
theorem round_trip_cex :
    1 * roundTripState.multiplier + roundTripState.offset = 3/2
    ∧ (OnUpdate roundTripState 1 (3/2)).1 ≠ [] := by
  constructor
  · norm_num [roundTripState]
  · simp only [OnUpdate, roundTripState]
    norm_num

/-- C6 amended: for any state with multiplier 2, offset -1/2 and deadband 0,
the tick at master angle 1 and mimic angle 3/2 computes target `3/2` and
error `0`, and issues a command (boundary case of the `>=` actuation test). -/
theorem round_trip_boundary_actuates (s : PluginState)
    (hmul : s.multiplier = 2) (hoff : s.offset = -(1/2)) (hsen : s.sensitiveness = 0) :
    1 * s.multiplier + s.offset = 3/2
    ∧ |1 * s.multiplier + s.offset - (3/2 : ℚ)| = 0
    ∧ (OnUpdate s 1 (3/2)).1 ≠ [] := by
  refine ⟨by rw [hmul, hoff]; norm_num, by rw [hmul, hoff]; norm_num, ?_⟩
  unfold OnUpdate
  rw [if_pos (by rw [hmul, hoff, hsen]; norm_num)]
  rcases s.pid with _ | pid <;> simp

/-- C6 witness: the amended statement at the concrete round-trip state. -/
theorem round_trip_boundary_actuates_witness :
    1 * roundTripState.multiplier + roundTripState.offset = 3/2
    ∧ |1 * roundTripState.multiplier + roundTripState.offset - (3/2 : ℚ)| = 0
    ∧ (OnUpdate roundTripState 1 (3/2)).1 ≠ [] :=
  round_trip_boundary_actuates roundTripState rfl rfl rfl

/-- C7 counterexample: a tick whose host-supplied elapsed time is 5 while
the stored nominal period is 1.  The force actually written is 1 (computed
with the nominal period), whereas feeding the supplied elapsed time into
the same PID would give 5 — so the time delta fed to the PID is not the
per-invocation elapsed time. -/
theorem pid_timestep_cex :
    (tick pidTickState slowIn).1 = [JointWrite.setForce 0 1]
    ∧ clamp ((integPid.computeCommand
        (slowIn.masterAngle * pidTickState.multiplier + pidTickState.offset - slowIn.mimicAngle)
        slowIn.elapsed).1) (-pidTickState.maxEffort) pidTickState.maxEffort = 5
    ∧ (1 : ℚ) ≠ 5 := by
  refine ⟨?_, ?_, by norm_num⟩
  · simp only [tick, OnUpdate, pidTickState, slowIn, integPid, Pid.mk5, Pid.computeCommand, clamp]
    norm_num [min_def, max_def]
  · simp only [pidTickState, slowIn, integPid, Pid.mk5, Pid.computeCommand, clamp]
    norm_num [min_def, max_def]

/-- C7 amended: the time delta fed to the PID on every actuating tick is the
fixed `loopPeriodCount` — the nominal tick period `period().count()` of the
rate built at arm-time from the reciprocal of the world max step size — the
same value every tick, not a per-invocation elapsed-time input. -/
theorem pid_timestep_nominal (s : PluginState) (inp : TickInput) (pid : Pid)
    (hpid : s.pid = some pid)
    (hdb : s.sensitiveness ≤ |inp.masterAngle * s.multiplier + s.offset - inp.mimicAngle|) :
    (tick s inp).1
      = [JointWrite.setForce 0
          (clamp ((pid.computeCommand
              (inp.masterAngle * s.multiplier + s.offset - inp.mimicAngle)
              s.loopPeriodCount).1) (-s.maxEffort) s.maxEffort)]
    ∧ ((tick s inp).2).loopPeriodCount = s.loopPeriodCount
    ∧ ∀ (m : Model) (rosOkA : Bool) (sdfA : SdfConfig) (gainsA : GainParams) (st : PluginState),
        (Load (some m) rosOkA sdfA gainsA).state = some st →
        st.loopPeriodCount = 1000000000 * m.world.maxStepSize := by
  refine ⟨?_, (OnUpdate_preserves s inp.masterAngle inp.mimicAngle).2, ?_⟩
  · unfold tick OnUpdate
    rw [if_pos hdb, hpid]
  · intro m rosOkA sdfA gainsA st hst
    obtain ⟨m2, jn, mn, hm2, -, -, -, heq⟩ := Load_state_some _ _ _ _ _ hst
    injection hm2 with hm2
    subst hm2
    rw [heq] at hst
    obtain ⟨mj, -, hstEq, -⟩ := loadResolve_arms _ _ _ _ _ _ hst
    rw [hstEq]
    show ratePeriodCount (1 / m.world.maxStepSize) = 1000000000 * m.world.maxStepSize
    rw [ratePeriodCount, one_div, div_inv_eq_mul]

/-- C7 witness: the nominal-period force command at a concrete PID tick. -/
theorem pid_timestep_nominal_witness :
    (tick pidTickState fastIn).1
      = [JointWrite.setForce 0
          (clamp ((integPid.computeCommand
              (fastIn.masterAngle * pidTickState.multiplier + pidTickState.offset - fastIn.mimicAngle)
              pidTickState.loopPeriodCount).1) (-pidTickState.maxEffort) pidTickState.maxEffort)] :=
  (pid_timestep_nominal pidTickState fastIn integPid rfl (by norm_num [pidTickState, fastIn])).1

/-- Resolving the only joint of `sampleModel` by name. -/
lemma sampleModel_j1 : sampleModel.getJoint "j1" = some ⟨0, 5⟩ := by
  simp [sampleModel, Model.getJoint]

/-- C8 counterexample: a configuration naming the same joint `j1` as both
master and mimic passes the validation gate and arms, refuting the claimed
`master_joint_id != mimic_joint_id` invariant. -/
theorem same_joint_arms_cex :
    sameJointSdf.joint = sameJointSdf.mimicJoint
    ∧ (Load (some sampleModel) true sameJointSdf noGains).armed = true := by
  refine ⟨rfl, ?_⟩
  simp [Load, loadResolve, sameJointSdf, sampleModel, Model.getJoint]

/-- C8 amended: the gate requires only that both configured names resolve to
existing joints in the host model (plus the earlier key/runtime checks); it
does not require the two identifiers to differ, so a configuration naming
the same joint for both still arms. -/
theorem resolving_joints_arm (m : Model) (sdf : SdfConfig) (gains : GainParams)
    (jn mn : String) (j mj : Joint)
    (hj : sdf.joint = some jn) (hmn : sdf.mimicJoint = some mn)
    (hrj : m.getJoint jn = some j) (hrm : m.getJoint mn = some mj) :
    (Load (some m) true sdf gains).armed = true := by
  simp [Load, loadResolve, hj, hmn, hrj, hrm]

/-- C8 witness: the amended theorem applied to the same-joint configuration. -/
theorem resolving_joints_arm_witness :
    (Load (some sampleModel) true sameJointSdf noGains).armed = true :=
  resolving_joints_arm sampleModel sameJointSdf noGains "j1" "j1" ⟨0, 5⟩ ⟨0, 5⟩
    rfl rfl sampleModel_j1 sampleModel_j1

/-- C9: with the `hasPID` marker present and no explicit gains, `Load`
returns exactly the same result as with the explicit gains
`kp = 10, ki = 1/10, kd = 0, i_clamp = 1/5` — so the armed controller
behaves identically — and the constructed PID carries those gains with the
symmetric integral clamp `[-1/5, 1/5]` and zeroed state. -/
theorem default_pid_gains (parent : Option Model) (rosOk : Bool) (sdf : SdfConfig)
    (hpid : sdf.hasPID = true) :
    Load parent rosOk sdf noGains = Load parent rosOk sdf defaultGains
    ∧ ∀ st : PluginState, (Load parent rosOk sdf noGains).state = some st →
        st.pid = some ⟨10, 1/10, 0, 1/5, -(1/5), 0, 0⟩ := by
  obtain ⟨js, mjs, hp, mu, off, sen, me⟩ := sdf
  rcases hp with _ | _
  · exact absurd hpid (by simp)
  · constructor
    · rcases parent with _ | m
      · rfl
      · rcases rosOk with _ | _
        · rfl
        · rcases js with _ | jn
          · rfl
          · rcases mjs with _ | mn
            · rfl
            · rfl
    · intro st hst
      rcases parent with _ | m
      · simp [Load] at hst
      · rcases rosOk with _ | _
        · simp [Load] at hst
        · rcases js with _ | jn
          · simp [Load] at hst
          · rcases mjs with _ | mn
            · simp [Load] at hst
            · obtain ⟨mj, -, hstEq, -⟩ := loadResolve_arms m jn mn _ _ st hst
              rw [hstEq]
              rfl

/-- C9 witness: the default-gain and explicit-gain loads coincide on a
concrete armed configuration. -/
theorem default_pid_gains_witness :
    Load (some sampleModel) true pidSdf noGains
      = Load (some sampleModel) true pidSdf defaultGains :=
  (default_pid_gains (some sampleModel) true pidSdf rfl).1

/-- The concrete armed load of the same-joint configuration, evaluated. -/
lemma load_sameJoint_eval :
    (Load (some sampleModel) true sameJointSdf noGains).state = some sameJointState := by
  have hj1 : sampleModel.getJoint "j1" = some ⟨0, 5⟩ := sampleModel_j1
  show (loadResolve sampleModel "j1" "j1" none sameJointSdf).state = some sameJointState
  unfold loadResolve
  rw [hj1]
  show some _ = some sameJointState
  simp only [Option.some.injEq, PluginState.mk.injEq, sameJointState]
  norm_num [declareParameter, ratePeriodCount, sameJointSdf, sampleModel]

/-- C10: when the configuration omits `maxEffort`, the armed `max_effort` is
the effort limit of the resolved mimic joint; the static `fmax` capacity
write happens at arm-time exactly when PID mode is disabled (never when it
is enabled); and no tick ever issues a `SetParam` write. -/
theorem max_effort_default_and_static_cap (m : Model) (rosOk : Bool) (sdf : SdfConfig)
    (gains : GainParams) (st : PluginState) (mn : String) (mj : Joint)
    (hme : sdf.maxEffort = none) (hmn : sdf.mimicJoint = some mn)
    (hmj : m.getJoint mn = some mj)
    (hst : (Load (some m) rosOk sdf gains).state = some st) :
    st.maxEffort = mj.effortLimit
    ∧ (Load (some m) rosOk sdf gains).mimicWrites
        = (if sdf.hasPID then [] else [JointWrite.setParam "fmax" 0 st.maxEffort])
    ∧ ∀ (s : PluginState) (mp ap : ℚ) (k : String) (ax : ℕ) (v : ℚ),
        JointWrite.setParam k ax v ∉ (OnUpdate s mp ap).1 := by
  obtain ⟨m2, jn, mn2, hm2, hro, hj, hmn2, heq⟩ := Load_state_some _ _ _ _ _ hst
  injection hm2 with hm2
  subst hm2
  rw [hmn] at hmn2
  injection hmn2 with hmn2
  subst hmn2
  rw [heq] at hst
  obtain ⟨mj2, hgm, hstEq, hw⟩ := loadResolve_arms _ _ _ _ _ _ hst
  rw [hmj] at hgm
  injection hgm with hgm
  subst hgm
  refine ⟨?_, ?_, ?_⟩
  · rw [hstEq]
    show sdf.maxEffort.getD mj.effortLimit = mj.effortLimit
    rw [hme]
    rfl
  · rw [heq, hw, hstEq]
    rcases hp : sdf.hasPID with _ | _ <;> simp [hp]
  · intro s mp ap k ax v hmem
    unfold OnUpdate at hmem
    split at hmem
    · rcases hpd : s.pid with _ | pid
      · rw [hpd] at hmem
        simp at hmem
      · rw [hpd] at hmem
        simp at hmem
    · simp at hmem

/-- C10 witness: the concrete armed load with `maxEffort` omitted and PID
disabled defaults `max_effort` to the effort limit 5 and writes `fmax` once. -/
theorem max_effort_default_and_static_cap_witness :
    sameJointState.maxEffort = (⟨0, 5⟩ : Joint).effortLimit
    ∧ (Load (some sampleModel) true sameJointSdf noGains).mimicWrites
        = (if sameJointSdf.hasPID then []
           else [JointWrite.setParam "fmax" 0 sameJointState.maxEffort]) :=
  ⟨(max_effort_default_and_static_cap sampleModel true sameJointSdf noGains sameJointState
      "j1" ⟨0, 5⟩ rfl rfl sampleModel_j1 load_sameJoint_eval).1,
   (max_effort_default_and_static_cap sampleModel true sameJointSdf noGains sameJointState
      "j1" ⟨0, 5⟩ rfl rfl sampleModel_j1 load_sameJoint_eval).2.1⟩

end MimicJoint
